import Mathlib

/-!
# Verification of the cassandra_fdw deparser and modify/scan engine

Shallow embedding of `src/deparse.c` and `src/cstar_fdw.c` (cassandra_fdw).
Catalog lookups (foreign-table options, attribute names/types) are modelled by
an explicit `TableMeta` record holding exactly the data those PostgreSQL
catalog calls return.  Statement construction by repeated `appendStringInfo`
calls is modelled by string concatenation in the same order as the C code.
-/

/-- PostgreSQL type OID `INT2OID` (16-bit integer), from pg_type.h. -/
def INT2OID : Nat := 21

/-- PostgreSQL type OID `INT4OID`. -/
def INT4OID : Nat := 23

/-- PostgreSQL type OID `INT8OID`. -/
def INT8OID : Nat := 20

/-- PostgreSQL type OID `FLOAT4OID`. -/
def FLOAT4OID : Nat := 700

/-- PostgreSQL type OID `FLOAT8OID`. -/
def FLOAT8OID : Nat := 701

/-- PostgreSQL type OID `BOOLOID`. -/
def BOOLOID : Nat := 16

/-- PostgreSQL type OID `TEXTOID`. -/
def TEXTOID : Nat := 25

/-- PostgreSQL type OID `VARCHAROID`. -/
def VARCHAROID : Nat := 1043

/-- PostgreSQL type OID `BPCHAROID`. -/
def BPCHAROID : Nat := 1042

/-- PostgreSQL type OID `TIMESTAMPOID`. -/
def TIMESTAMPOID : Nat := 1114

/-- PostgreSQL type OID `TIMESTAMPTZOID`. -/
def TIMESTAMPTZOID : Nat := 1184

/-- PostgreSQL type OID `UUIDOID`. -/
def UUIDOID : Nat := 2950

/-- PostgreSQL type OID `INETOID`. -/
def INETOID : Nat := 869

/-- PostgreSQL's `FirstLowInvalidHeapAttributeNumber` (PG 12+ value, -7).
Attribute numbers are stored in a `Bitmapset` offset by this constant; the
code only ever uses it consistently on both sides, so the exact value does
not affect any property proved here. -/
def FirstLowInvalidHeapAttributeNumber : Int := -7

/-- One attribute (column) of the foreign table as the PostgreSQL catalog
describes it: physical attribute name, the optional `column_name` FDW option
returned by `GetForeignColumnOptions`, the type OID, and the dropped flag. -/
structure ColumnMeta where
  attname : String
  column_name_opt : Option String
  atttypid : Nat
  attisdropped : Bool
deriving Repr, DecidableEq

/-- The foreign table as the catalog describes it: namespace and relation
name, the per-table `schema_name` / `table_name` FDW options, the
`primary_key` FDW option, and the ordered column list (attnum `i` is
`cols.get (i-1)`; attnums are 1-based and never reused). -/
structure TableMeta where
  nspname : String
  relname : String
  schema_name_opt : Option String
  table_name_opt : Option String
  primary_key_opt : Option String
  cols : List ColumnMeta
deriving Repr, DecidableEq

/-- `cassGetPKOption` (cstar_fdw.c): scans the foreign-table options for
`primary_key`; leaves the out-parameter untouched (here: `none`) when the
option is absent. -/
def cassGetPKOption (tm : TableMeta) : Option String :=
  tm.primary_key_opt

/-- ASCII lower-case letter test, as the C range check `ch >= 'a' && ch <= 'z'`. -/
def isLowerAscii (c : Char) : Bool :=
  'a' ≤ c && c ≤ 'z'

/-- ASCII digit test, as the C range check `ch >= '0' && ch <= '9'`. -/
def isDigitAscii (c : Char) : Bool :=
  '0' ≤ c && c ≤ '9'

/-- The double-quote character (ASCII 34). -/
def dquoteChar : Char := Char.ofNat 34

/-- Modelled from PostgreSQL core (external to this repository):
`quote_identifier` (ruleutils.c) returns an identifier unchanged when it is
"safe" (first character an ASCII lower-case letter or underscore, remaining
characters lower-case letters, digits or underscores) and otherwise wraps it
in double quotes, doubling any embedded double quote.  The original also
forces quoting for non-unreserved SQL keywords and under the
`quote_all_identifiers` GUC; neither branch is exercised by any identifier
considered in this development, so both are omitted from the model. -/
def quote_identifier (ident : String) : String :=
  let safe :=
    match ident.toList with
    | [] => false
    | c :: rest =>
        (isLowerAscii c || c = '_') &&
          rest.all (fun ch => isLowerAscii ch || isDigitAscii ch || ch = '_')
  if safe then ident
  else
    "\"" ++
      String.join (ident.toList.map
        (fun ch => if ch = dquoteChar then "\"\"" else String.singleton ch)) ++
      "\""

/-- `get_attname(relid, attnum, false)`: the physical name of attribute
`attnum` (1-based).  The C function errors on an invalid attnum; every call
site in the deparser passes an attnum of an existing column, so the `""`
default of the model is never reached from those call sites. -/
def get_attname (tm : TableMeta) (attnum : Nat) : String :=
  ((tm.cols.get? (attnum - 1)).map ColumnMeta.attname).getD ""

/-- `GetForeignColumnOptions` followed by the `column_name` scan in
`cassDeparseColumnRef`: the per-column name override, when configured. -/
def column_name_option (tm : TableMeta) (attnum : Nat) : Option String :=
  (tm.cols.get? (attnum - 1)).bind ColumnMeta.column_name_opt

/-- `cassDeparseRelation` (deparse.c): the qualified remote table name.
The `schema_name` / `table_name` FDW options override the relation's own
namespace and name; both parts pass through `quote_identifier`. -/
def cassDeparseRelation (tm : TableMeta) : String :=
  let nspname := (tm.schema_name_opt).getD tm.nspname
  let relname := (tm.table_name_opt).getD tm.relname
  quote_identifier nspname ++ "." ++ quote_identifier relname

/-- `cassDeparseColumnRef` (deparse.c): emit the name of column `attnum`,
using the `column_name` FDW option when present, else the attribute name;
the result passes through `quote_identifier`. -/
def cassDeparseColumnRef (tm : TableMeta) (attnum : Nat) : String :=
  let colname :=
    match column_name_option tm attnum with
    | some n => n
    | none => get_attname tm attnum
  quote_identifier colname

/-- `bms_is_member` on the modelled `Bitmapset` (a list of member offsets). -/
def bms_is_member (x : Int) (s : List Int) : Bool :=
  decide (x ∈ s)

/-- One pass of the `for (i = 1; i <= natts; i++)` loop of
`cassDeparseTargetList`, over the remaining columns paired with their
attnums.  `first` is the comma-suppression flag; the returned pair is the
text appended by the remaining iterations and the attnums appended to
`retrieved_attrs` by them. -/
def deparseTargetListAux (tm : TableMeta) (attrs_used : List Int)
    (have_wholerow : Bool) :
    List (Nat × ColumnMeta) → Bool → String × List Nat
  | [], _ => ("", [])
  | (i, attr) :: rest, first =>
    if attr.attisdropped then
      deparseTargetListAux tm attrs_used have_wholerow rest first
    else if have_wholerow ||
        bms_is_member ((i : Int) - FirstLowInvalidHeapAttributeNumber)
          attrs_used then
      let piece :=
        (if !first then ", " else "") ++ cassDeparseColumnRef tm i
      let tail := deparseTargetListAux tm attrs_used have_wholerow rest false
      (piece ++ tail.1, i :: tail.2)
    else
      deparseTargetListAux tm attrs_used have_wholerow rest first

/-- The 1-based enumeration of the table's columns, i.e. the sequence of
`(attnum, attribute)` pairs the deparser's loop walks. -/
def attnumbered (tm : TableMeta) : List (Nat × ColumnMeta) :=
  tm.cols.enum.map (fun p => (p.1 + 1, p.2))

/-- `cassDeparseTargetList` (deparse.c): the SELECT column list and the
`retrieved_attrs` list.  A whole-row reference (bitmapset member
`0 - FirstLowInvalidHeapAttributeNumber`) forces all non-dropped columns;
if no column qualifies the literal token `NULL` is emitted instead. -/
def cassDeparseTargetList (tm : TableMeta) (attrs_used : List Int) :
    String × List Nat :=
  let have_wholerow :=
    bms_is_member ((0 : Int) - FirstLowInvalidHeapAttributeNumber) attrs_used
  let r := deparseTargetListAux tm attrs_used have_wholerow (attnumbered tm) true
  if r.2 = [] then ("NULL", []) else r

/-- `cassDeparseSelectSql` (deparse.c): `SELECT <tlist> FROM <relation>`,
returning the statement text together with `retrieved_attrs`. -/
def cassDeparseSelectSql (tm : TableMeta) (attrs_used : List Int) :
    String × List Nat :=
  let tl := cassDeparseTargetList tm attrs_used
  ("SELECT " ++ tl.1 ++ " FROM " ++ cassDeparseRelation tm, tl.2)

/-- The first `foreach(lc, targetAttrs)` loop of `cassDeparseInsertSql`:
the comma-separated deparsed column references, with `first` as the
comma-suppression flag. -/
def deparseInsertColsAux (tm : TableMeta) :
    List Nat → Bool → String
  | [], _ => ""
  | attnum :: rest, first =>
      (if !first then ", " else "") ++ cassDeparseColumnRef tm attnum ++
        deparseInsertColsAux tm rest false

/-- The second `foreach(lc, targetAttrs)` loop of `cassDeparseInsertSql`:
one positional placeholder per target attribute. -/
def deparsePlaceholdersAux : List Nat → Bool → String
  | [], _ => ""
  | _ :: rest, first =>
      (if !first then ", " else "") ++ "?" ++ deparsePlaceholdersAux rest false

/-- `cassDeparseInsertSql` (deparse.c): `INSERT INTO <relation>(<cols>)
VALUES (<placeholders>)` for a non-empty target list (note: the C code
appends the opening parenthesis directly after the relation name, with no
space), else `INSERT INTO <relation> DEFAULT VALUES`; `doNothing` appends
the `ON CONFLICT DO NOTHING` directive. -/
def cassDeparseInsertSql (tm : TableMeta) (targetAttrs : List Nat)
    (doNothing : Bool) : String :=
  "INSERT INTO " ++ cassDeparseRelation tm ++
    (if targetAttrs ≠ [] then
      "(" ++ deparseInsertColsAux tm targetAttrs true ++ ") VALUES (" ++
        deparsePlaceholdersAux targetAttrs true ++ ")"
    else " DEFAULT VALUES") ++
    (if doNothing then " ON CONFLICT DO NOTHING" else "")

/-- The `foreach(lc, targetAttrs)` loop of `cassDeparseUpdateSql`: the
comma-separated `<col> = ?` assignments of the SET clause. -/
def deparseSetClauseAux (tm : TableMeta) :
    List Nat → Bool → String
  | [], _ => ""
  | attnum :: rest, first =>
      (if !first then ", " else "") ++ cassDeparseColumnRef tm attnum ++
        " = ?" ++ deparseSetClauseAux tm rest false

/-- `cassDeparseUpdateSql` (deparse.c): `UPDATE <relation> SET <col> = ?
[, ...] WHERE <primaryKey> = ?`.  The key predicate is appended by
`appendStringInfo(buf, " WHERE %s = ?", primaryKey)`: the configured
`primary_key` string is substituted verbatim, without `quote_identifier`
and without the `column_name` override lookup. -/
def cassDeparseUpdateSql (tm : TableMeta) (targetAttrs : List Nat)
    (primaryKey : String) : String :=
  "UPDATE " ++ cassDeparseRelation tm ++ " SET " ++
    deparseSetClauseAux tm targetAttrs true ++
    " WHERE " ++ primaryKey ++ " = ?"

/-- `cassDeparseDeleteSql` (deparse.c): `DELETE FROM <relation> WHERE
<primaryKey> = ?`, with the key substituted verbatim exactly as in
`cassDeparseUpdateSql`. -/
def cassDeparseDeleteSql (tm : TableMeta) (primaryKey : String) : String :=
  "DELETE FROM " ++ cassDeparseRelation tm ++ " WHERE " ++ primaryKey ++ " = ?"

/-- PostgreSQL's `CmdType` enum (nodes.h), in declaration order, so that
`1 << CMD_*` in `cassIsForeignRelUpdatable` is modelled faithfully. -/
inductive CmdType
  | cmdUnknown
  | cmdSelect
  | cmdUpdate
  | cmdInsert
  | cmdDelete
deriving Repr, DecidableEq

/-- The numeric value of a `CmdType` enumerator. -/
def CmdType.toNat : CmdType → Nat
  | .cmdUnknown => 0
  | .cmdSelect => 1
  | .cmdUpdate => 2
  | .cmdInsert => 3
  | .cmdDelete => 4

/-- PostgreSQL's `OnConflictAction` relevant values. -/
inductive OnConflictAction
  | actNone
  | actNothing
  | actUpdate
deriving Repr, DecidableEq

/-- The errors this module raises with `ereport(ERROR, ...)` / `elog(ERROR, ...)`. -/
inductive FdwError
  /-- "Unable to bind NULL to a SMALLINT COLUMN ..." (`cassStatementBindNull`). -/
  | nullSmallintBind (opname : String)
  /-- "Data type with OID %d not supported." (`bind_cass_statement_param`). -/
  | unsupportedType (oid : Nat)
  /-- "The specified PRIMARY KEY ... contains a NULL value ..." (`cassExecPKPredWrite`). -/
  | nullPrimaryKey
  /-- "Failed to execute the %s into Cassandra: %s" (remote non-success status). -/
  | remoteError (opname msg : String)
  /-- "No PRIMARY KEY specified for the FOREIGN TABLE ..." (`cassAddForeignUpdateTargets`). -/
  | noPrimaryKeyOption
  /-- "The specified PRIMARY KEY '%s' does not exist in the FOREIGN TABLE ..." -/
  | pkNotInTable (pk : String)
  /-- "system-column update is not supported" (`cassPlanForeignModify`). -/
  | systemColumnUpdate
  /-- "unexpected ON CONFLICT specification" (`cassPlanForeignModify`). -/
  | unexpectedOnConflict
deriving Repr, DecidableEq

/-- The comparison `strncmp(attname, primary_key, strlen(primary_key)) == 0`
used by `cassAddForeignUpdateTargets`: by C-string semantics (comparison
stops at the terminating NUL of the shorter string) it holds exactly when
`primary_key` is a prefix of `attname`. -/
def strncmpPrefixMatch (primary_key attname : String) : Bool :=
  List.isPrefixOf primary_key.toList attname.toList

/-- The `for` loop of `cassAddForeignUpdateTargets` over the (1-based
enumerated) columns: for every column whose name matches
`strncmp(attname, primary_key, strlen(primary_key)) == 0` — i.e. whose name
has the configured key as a prefix — a resjunk target entry carrying that
column is appended.  Returns the attnums of the appended entries, in
column order. -/
def addUpdateTargetsLoop (primary_key : String) :
    List (Nat × ColumnMeta) → List Nat
  | [] => []
  | (i, att) :: rest =>
    if strncmpPrefixMatch primary_key att.attname then
      i :: addUpdateTargetsLoop primary_key rest
    else
      addUpdateTargetsLoop primary_key rest

/-- `cassAddForeignUpdateTargets` (cstar_fdw.c): before planning an
UPDATE/DELETE, fetch the `primary_key` option (error if absent), walk all
columns appending a hidden resjunk entry for every column whose name has
the configured key as a prefix (the `strncmp` comparison), and error if no
column matched (`has_PK` stayed false).  Returns the attnums attached. -/
def cassAddForeignUpdateTargets (tm : TableMeta) :
    Except FdwError (List Nat) :=
  match cassGetPKOption tm with
  | none => .error .noPrimaryKeyOption
  | some primary_key =>
    let attached := addUpdateTargetsLoop primary_key (attnumbered tm)
    if attached = [] then .error (.pkNotInTable primary_key)
    else .ok attached

/-- The plan data `cassPlanForeignModify` stores in `fdw_private`:
statement text and the integer list of target attnums. -/
structure ModifyPlan where
  sql : String
  targetAttrs : List Nat
deriving Repr, DecidableEq

/-- `cassPlanForeignModify` (cstar_fdw.c).  For an INSERT the target list is
all non-dropped columns of the table (the code transmits every defined
column so that defaults are not lost); for an UPDATE it is the columns of
`rte->updatedCols` (modelled as the ascending list of bitmapset members
that `bms_next_member` yields, each offset by
`FirstLowInvalidHeapAttributeNumber` to recover the attnum); a DELETE has
no target list.  Only `ON CONFLICT DO NOTHING` (or no conflict clause) is
accepted.  UPDATE/DELETE deparse a WHERE predicate on the configured
`primary_key` option (already validated by `cassAddForeignUpdateTargets`,
so the `getD ""` default is unreachable for those operations). -/
def cassPlanForeignModify (tm : TableMeta) (operation : CmdType)
    (updatedCols : List Int) (onConflictAction : OnConflictAction) :
    Except FdwError ModifyPlan := do
  let targetAttrs : List Nat ←
    match operation with
    | .cmdInsert =>
      pure (((attnumbered tm).filter
        (fun p => !p.2.attisdropped)).map (fun p => p.1))
    | .cmdUpdate =>
      updatedCols.foldlM (fun acc col => do
        let attno : Int := col + FirstLowInvalidHeapAttributeNumber
        if attno ≤ 0 then
          throw FdwError.systemColumnUpdate
        else
          pure (acc ++ [attno.toNat])) []
    | _ => pure []
  let doNothing ←
    match onConflictAction with
    | .actNothing => pure true
    | .actNone => pure false
    | _ => throw FdwError.unexpectedOnConflict
  let primaryKey := (cassGetPKOption tm).getD ""
  match operation with
  | .cmdInsert => pure ⟨cassDeparseInsertSql tm targetAttrs doNothing, targetAttrs⟩
  | .cmdUpdate => pure ⟨cassDeparseUpdateSql tm targetAttrs primaryKey, targetAttrs⟩
  | .cmdDelete => pure ⟨cassDeparseDeleteSql tm primaryKey, targetAttrs⟩
  | _ => throw FdwError.unexpectedOnConflict

/-- `get_attnum(relid, name)` (PostgreSQL catalog lookup, exact name match):
the attnum of the column whose name equals `name`, 0 (`InvalidAttrNumber`)
when there is none. -/
def get_attnum (tm : TableMeta) (name : String) : Nat :=
  match tm.cols.findIdx? (fun c => c.attname = name) with
  | some i => i + 1
  | none => 0

/-- Execution state of a foreign INSERT/UPDATE/DELETE operation
(`CassFdwModifyState`), restricted to the fields the execution path reads:
statement text, target attnums, the parameter type-OID array and the
parameter count. -/
structure CassFdwModifyState where
  query : String
  target_attrs : List Nat
  p_type_oids : List Nat
  p_nums : Nat
deriving Repr, DecidableEq

/-- `cassBeginForeignModify` (cstar_fdw.c), parameter set-up portion: for
INSERT/UPDATE one parameter type per target attribute, in target-list
order; for UPDATE/DELETE one further parameter for the primary-key column,
found by exact name lookup (`get_attnum`), appended last. -/
def cassBeginForeignModify (tm : TableMeta) (operation : CmdType)
    (plan : ModifyPlan) : CassFdwModifyState :=
  let targetOids :=
    if operation = .cmdInsert || operation = .cmdUpdate then
      plan.targetAttrs.map (fun attnum =>
        (((tm.cols.get? (attnum - 1)).map ColumnMeta.atttypid).getD 0))
    else []
  let keyOids :=
    if operation = .cmdUpdate || operation = .cmdDelete then
      let pk := (cassGetPKOption tm).getD ""
      let attnum := get_attnum tm pk
      [(((tm.cols.get? (attnum - 1)).map ColumnMeta.atttypid).getD 0)]
    else []
  { query := plan.sql
    target_attrs := plan.targetAttrs
    p_type_oids := targetOids ++ keyOids
    p_nums := (targetOids ++ keyOids).length }

/-- A PostgreSQL `Datum` as the executor hands it to the FDW: the payload
matches the column's declared type (the `DatumGet*` macros reinterpret the
same machine word; here each shape carries its typed payload directly). -/
inductive PgDatum
  /-- Payload of the integer types (int2/int4/int8): the stored value. -/
  | dInt (i : Int)
  /-- Payload of float4/float8, as the exact rational the bits denote. -/
  | dFloat (q : Rat)
  | dBool (b : Bool)
  /-- Payload of the text-like types; `OidOutputFunctionCall` re-renders it
  to this same text. -/
  | dText (s : String)
  /-- Payload of timestamp/timestamptz: microseconds since the PostgreSQL
  epoch (2000-01-01). -/
  | dTimestamp (micros : Int)
  /-- Payload of a uuid column. -/
  | dUuid (hi lo : Nat)
  /-- Payload of an inet column. -/
  | dInet (bytes : List Nat)
deriving Repr, DecidableEq

/-- The wire-side value a `cass_statement_bind_*` call transmits. -/
inductive CassWireValue
  | wInt16 (i : Int)
  | wInt32 (i : Int)
  | wInt64 (i : Int)
  | wFloat (q : Rat)
  | wDouble (q : Rat)
  | wBool (b : Bool)
  | wString (s : String)
deriving Repr, DecidableEq

/-- `DatumGetInt16`-style projection (executor guarantees the payload shape
matches; the fallback 0 of the model is never reached from a well-typed
call). -/
def DatumGetInt (d : PgDatum) : Int :=
  match d with
  | .dInt i => i
  | _ => 0

/-- `DatumGetFloat4` / `DatumGetFloat8` projection. -/
def DatumGetFloat (d : PgDatum) : Rat :=
  match d with
  | .dFloat q => q
  | _ => 0

/-- `DatumGetBool` projection. -/
def DatumGetBool (d : PgDatum) : Bool :=
  match d with
  | .dBool b => b
  | _ => false

/-- `OidOutputFunctionCall` on a text-like datum: the stored text. -/
def OidOutputFunctionCall (d : PgDatum) : String :=
  match d with
  | .dText s => s
  | _ => ""

/-- `DatumGetTimestampTz` projection. -/
def DatumGetTimestampTz (d : PgDatum) : Int :=
  match d with
  | .dTimestamp m => m
  | _ => 0

/-- `SetEpochTimestamp()` (PostgreSQL): the Unix epoch 1970-01-01 as a
PostgreSQL timestamp, i.e. -10957 days in microseconds. -/
def SetEpochTimestamp : Int := -946684800000000

/-- `MSECS_PER_SEC`. -/
def MSECS_PER_SEC : Int := 1000

/-- `bind_cass_statement_param` (cstar_fdw.c): the per-type-OID `switch`
mapping a parameter datum to the driver bind call; returns the wire value
bound, or the "Data type with OID %d not supported." error from the
`default` arm.  There is no arm for `UUIDOID` (2950) or `INETOID` (869):
those type OIDs fall through to the default error.  `tzoffset` is the
session-timezone offset (seconds) that `timestamp2tm` resolves at the call
site; C division truncates toward zero, hence `Int.div`. -/
def bind_cass_statement_param (tzoffset : Int) (type : Nat) (value : PgDatum) :
    Except FdwError CassWireValue :=
  if type = INT2OID then .ok (.wInt16 (DatumGetInt value))
  else if type = INT4OID then .ok (.wInt32 (DatumGetInt value))
  else if type = INT8OID then .ok (.wInt64 (DatumGetInt value))
  else if type = FLOAT4OID then .ok (.wFloat (DatumGetFloat value))
  else if type = FLOAT8OID then .ok (.wDouble (DatumGetFloat value))
  else if type = BOOLOID then .ok (.wBool (DatumGetBool value))
  else if type = TEXTOID || type = VARCHAROID || type = BPCHAROID then
    .ok (.wString (OidOutputFunctionCall value))
  else if type = TIMESTAMPTZOID || type = TIMESTAMPOID then
    .ok (.wInt64 (Int.tdiv
      (DatumGetTimestampTz value - SetEpochTimestamp + tzoffset)
      MSECS_PER_SEC))
  else .error (.unsupportedType type)

/-- `cassStatementBindNull` (cstar_fdw.c): binding NULL to a parameter of
type `INT2OID` releases the held resources and raises the smallint-NULL
error (with the driver-issue URL) before any bind; every other type is
bound as an ordinary NULL via `cass_statement_bind_null`. -/
def cassStatementBindNull (ptypeid : Nat) (opname : String) :
    Except FdwError Unit :=
  if ptypeid = INT2OID then .error (.nullSmallintBind opname)
  else .ok ()

/-- One observable action of the modify execution path. -/
inductive ExecEvent
  /-- `cass_statement_bind_null(statement, pindex)`. -/
  | evBindNull (pindex : Nat)
  /-- A typed `cass_statement_bind_*(statement, pindex, v)`. -/
  | evBind (pindex : Nat) (w : CassWireValue)
  /-- `cass_session_execute` of the statement — the remote call. -/
  | evRemoteExecute (query : String)
deriving Repr, DecidableEq

/-- The `foreach(lc, fmstate->target_attrs)` parameter-binding loop shared
verbatim by `cassExecForeignInsert` and `cassExecPKPredWrite`: for each
target attnum, fetch the slot value; a NULL goes through
`cassStatementBindNull`, a non-NULL through `bind_cass_statement_param`,
both at position `pindex` with type `p_type_oids[pindex]`.  Returns the
bind events performed before the first error (if any) and that error. -/
def bindTargetAttrsLoop (tzoffset : Int) (fm : CassFdwModifyState)
    (opname : String) (slot : Nat → Option PgDatum) :
    List Nat → Nat → List ExecEvent × Option FdwError
  | [], _ => ([], none)
  | attnum :: rest, pindex =>
    match slot attnum with
    | none =>
      match cassStatementBindNull (fm.p_type_oids.getD pindex 0) opname with
      | .error e => ([], some e)
      | .ok _ =>
        let tail := bindTargetAttrsLoop tzoffset fm opname slot rest (pindex + 1)
        (.evBindNull pindex :: tail.1, tail.2)
    | some value =>
      match bind_cass_statement_param tzoffset
          (fm.p_type_oids.getD pindex 0) value with
      | .error e => ([], some e)
      | .ok w =>
        let tail := bindTargetAttrsLoop tzoffset fm opname slot rest (pindex + 1)
        (.evBind pindex w :: tail.1, tail.2)

/-- `cassExecForeignInsert` (cstar_fdw.c): bind one parameter per target
attribute (when a slot is supplied and the target list is non-empty), then
execute the statement remotely at the write consistency level; a
non-success future status frees the resources and raises the remote error
with the INSERT tag.  The returned pair is the ordered event trace and the
error raised, if any. -/
def cassExecForeignInsert (tzoffset : Int) (fm : CassFdwModifyState)
    (slot : Option (Nat → Option PgDatum)) (remote : Except String Unit) :
    List ExecEvent × Option FdwError :=
  let bound :=
    match slot with
    | some s =>
      if fm.target_attrs ≠ [] then
        bindTargetAttrsLoop tzoffset fm "INSERT" s fm.target_attrs 0
      else ([], none)
    | none => ([], none)
  match bound.2 with
  | some e => (bound.1, some e)
  | none =>
    let events := bound.1 ++ [ExecEvent.evRemoteExecute fm.query]
    match remote with
    | .ok _ => (events, none)
    | .error msg => (events, some (.remoteError "INSERT" msg))

/-- `cassExecPKPredWrite` (cstar_fdw.c), the shared executor of
`cassExecForeignUpdate` and `cassExecForeignDelete`: bind the target-list
parameters exactly as INSERT does, then fetch the hidden resjunk key value
from the plan slot; a NULL key raises the "PRIMARY KEY ... contains a NULL
value" error before any remote call, otherwise the key is bound as the
last parameter and the statement executed remotely; a non-success status
frees the resources and raises the remote error tagged with `cqlOpName`. -/
def cassExecPKPredWrite (tzoffset : Int) (fm : CassFdwModifyState)
    (slot : Option (Nat → Option PgDatum)) (planKey : Option PgDatum)
    (remote : Except String Unit) (cqlOpName : String) :
    List ExecEvent × Option FdwError :=
  let bound :=
    match slot with
    | some s =>
      if fm.target_attrs ≠ [] then
        bindTargetAttrsLoop tzoffset fm cqlOpName s fm.target_attrs 0
      else ([], none)
    | none => ([], none)
  match bound.2 with
  | some e => (bound.1, some e)
  | none =>
    let pindex := fm.target_attrs.length
    match planKey with
    | none => (bound.1, some .nullPrimaryKey)
    | some value =>
      match bind_cass_statement_param tzoffset
          (fm.p_type_oids.getD pindex 0) value with
      | .error e => (bound.1, some e)
      | .ok w =>
        let events := bound.1 ++ [ExecEvent.evBind pindex w,
          ExecEvent.evRemoteExecute fm.query]
        match remote with
        | .ok _ => (events, none)
        | .error msg => (events, some (.remoteError cqlOpName msg))

/-- `cassIsForeignRelUpdatable` (cstar_fdw.c): unconditionally
`(1 << CMD_UPDATE) | (1 << CMD_INSERT) | (1 << CMD_DELETE)` — the function
ignores every property of the relation, including its options. -/
def cassIsForeignRelUpdatable (_tm : TableMeta) : Nat :=
  (1 <<< CmdType.cmdUpdate.toNat) |||
    (1 <<< CmdType.cmdInsert.toNat) |||
    (1 <<< CmdType.cmdDelete.toNat)

/-- A materialized result row (the output of
`make_tuple_from_result_row`, whose per-column decoding is not needed for
the scan-state properties proved here). -/
def ScanTuple : Type := List (Option String)

/-- Scan execution state (`CassFdwScanState`), restricted to the fields
`fetch_more_data` touches. -/
structure CassFdwScanState where
  query : String
  sql_sended : Bool
  tuples : Option (List ScanTuple)
  num_tuples : Nat
  next_tuple : Nat
  eof_reached : Bool

/-- `fetch_more_data` (cstar_fdw.c): flush the previous batch
(`fsstate->tuples = NULL`, batch context reset), execute the scan statement
remotely at the read consistency level; on success materialize every row,
replace the batch and set `eof_reached` true; on a non-success status
`pgcass_report_error(ERROR, ...)` is called.  Modelled from the spec for the
part outside src/: `pgcass_report_error` (connection.c, declared in
cstar_fdw.h) at level ERROR surfaces the remote error to the caller by a
non-local exit, as §7 of the spec requires ("surfaced ... then propagated to
the caller") — so the `fsstate->eof_reached = true;` statement that follows
it in the error arm is never executed, and the error result carries the scan
state as of the raise (batch flushed, `eof_reached` unchanged). -/
def fetch_more_data (st : CassFdwScanState)
    (remote : Except String (List ScanTuple)) :
    Except (String × CassFdwScanState) CassFdwScanState :=
  let st0 := { st with tuples := none }
  match remote with
  | .ok rows =>
    .ok { st0 with
      tuples := some rows
      num_tuples := rows.length
      next_tuple := 0
      eof_reached := true }
  | .error msg => .error (msg, st0)

/-- The placeholder character. -/
def qmarkChar : Char := Char.ofNat 63

/-- Number of positional placeholders in a statement text. -/
def countQMarks (s : String) : Nat :=
  s.toList.count qmarkChar

/-- Comma-separated join, following the spec's words for a deparsed
column/assignment list (used to compare against the first-flag loops of
deparse.c). -/
def specJoinComma : List String → String
  | [] => ""
  | [x] => x
  | x :: y :: xs => x ++ ", " ++ specJoinComma (y :: xs)

/-- Event `e` is the bind the execution loop performs for the tuple value of
column `attnum` at parameter position `pindex`: a NULL value (of a type
other than `INT2OID`) becomes `cass_statement_bind_null`, a non-NULL value
becomes the typed bind of its wire form. -/
def eventBindsColumn (tzoffset : Int) (fm : CassFdwModifyState)
    (slot : Nat → Option PgDatum) (attnum pindex : Nat) (e : ExecEvent) : Prop :=
  match slot attnum with
  | none =>
      fm.p_type_oids.getD pindex 0 ≠ INT2OID ∧ e = ExecEvent.evBindNull pindex
  | some v => ∃ w,
      bind_cass_statement_param tzoffset (fm.p_type_oids.getD pindex 0) v =
        .ok w ∧ e = ExecEvent.evBind pindex w

/-- The foreign table of the spec's scenario: remote name `ks.t` (via the
`schema_name`/`table_name` options), columns `(id int, v1 smallint,
v2 bigint, v3 boolean)`, `primary_key 'id'`. -/
def tmC : TableMeta :=
  { nspname := "public", relname := "t_local",
    schema_name_opt := some "ks", table_name_opt := some "t",
    primary_key_opt := some "id",
    cols := [
      { attname := "id", column_name_opt := none,
        atttypid := INT4OID, attisdropped := false },
      { attname := "v1", column_name_opt := none,
        atttypid := INT2OID, attisdropped := false },
      { attname := "v2", column_name_opt := none,
        atttypid := INT8OID, attisdropped := false },
      { attname := "v3", column_name_opt := none,
        atttypid := BOOLOID, attisdropped := false } ] }

/-- The scenario table with a `column_name 'key_id'` override configured on
the primary-key column `id`. -/
def tmQ : TableMeta :=
  { tmC with cols := [
      { attname := "id", column_name_opt := some "key_id",
        atttypid := INT4OID, attisdropped := false },
      { attname := "v1", column_name_opt := none,
        atttypid := INT2OID, attisdropped := false },
      { attname := "v2", column_name_opt := none,
        atttypid := INT8OID, attisdropped := false },
      { attname := "v3", column_name_opt := none,
        atttypid := BOOLOID, attisdropped := false } ] }

/-- A table with columns `id` and `idx` and `primary_key 'id'`: the name of
the second column has the configured key name as a proper prefix. -/
def tm5 : TableMeta :=
  { nspname := "public", relname := "t5",
    schema_name_opt := some "ks", table_name_opt := some "t5",
    primary_key_opt := some "id",
    cols := [
      { attname := "id", column_name_opt := none,
        atttypid := INT4OID, attisdropped := false },
      { attname := "idx", column_name_opt := none,
        atttypid := INT4OID, attisdropped := false } ] }

/-- The modify state `cassBeginForeignModify` builds for the scenario INSERT
(the plan `cassPlanForeignModify` produces for `tmC`). -/
def fmC : CassFdwModifyState :=
  cassBeginForeignModify tmC .cmdInsert
    ⟨"INSERT INTO ks.t(id, v1, v2, v3) VALUES (?, ?, ?, ?)", [1, 2, 3, 4]⟩

/-- The scenario tuple `(id=1, v2=2, v3=true)`: the unsupplied smallint
column `v1` (attnum 2) is NULL. -/
def slotC : Nat → Option PgDatum := fun a =>
  if a = 1 then some (.dInt 1)
  else if a = 3 then some (.dInt 2)
  else if a = 4 then some (.dBool true)
  else none

/-- A fully non-NULL tuple for the scenario table. -/
def slotFull : Nat → Option PgDatum := fun a =>
  if a = 1 then some (.dInt 1)
  else if a = 2 then some (.dInt 7)
  else if a = 3 then some (.dInt 2)
  else if a = 4 then some (.dBool true)
  else none

/-- `evs` is a trace that binds the tuple values of the given target
attnums, one event per attnum, in list order at consecutive parameter
positions starting at `pindex` (the spec-side description of §4.4/§4.5
parameter-binding order, compared against the execution loop). -/
def TraceBinds (tzoffset : Int) (fm : CassFdwModifyState)
    (slot : Nat → Option PgDatum) :
    List Nat → Nat → List ExecEvent → Prop
  | [], _, [] => True
  | [], _, _ :: _ => False
  | _ :: _, _, [] => False
  | attnum :: rest, pindex, e :: evs =>
    eventBindsColumn tzoffset fm slot attnum pindex e ∧
      TraceBinds tzoffset fm slot rest (pindex + 1) evs

/-- The scenario table with no `primary_key` option configured. -/
def tmNoPK : TableMeta :=
  { tmC with primary_key_opt := none }

/-- Characters of a string concatenation. -/
theorem strToList_append (s t : String) :
    (s ++ t).toList = s.toList ++ t.toList := by
  simp [String.toList, String.data_append]

/-- Placeholder count is additive under concatenation. -/
theorem countQMarks_append (s t : String) :
    countQMarks (s ++ t) = countQMarks s + countQMarks t := by
  simp [countQMarks, strToList_append, List.count_append]

/-- The retrieved-attrs component of the target-list loop is exactly the
attnums of the retained (non-dropped, referenced) columns, in walk order;
the comma-suppression flag does not influence it. -/
theorem deparseTargetListAux_snd (tm : TableMeta) (u : List Int) (hw : Bool) :
    ∀ (l : List (Nat × ColumnMeta)) (first : Bool),
      (deparseTargetListAux tm u hw l first).2 =
        (l.filter (fun p => !p.2.attisdropped &&
          (hw || bms_is_member ((p.1 : Int) - FirstLowInvalidHeapAttributeNumber)
            u))).map Prod.fst := by
  intro l
  induction l with
  | nil => intro first; rfl
  | cons hd tl ih =>
    intro first
    obtain ⟨i, attr⟩ := hd
    by_cases hdrop : attr.attisdropped
    · simp [deparseTargetListAux, hdrop, ih first]
    · by_cases hmem : (hw ||
        bms_is_member ((i : Int) - FirstLowInvalidHeapAttributeNumber) u) = true
      · simp [deparseTargetListAux, hdrop, hmem, ih false]
      · simp [deparseTargetListAux, hdrop, hmem, ih first]

/-- The attnums of the enumerated column walk are `1, 2, ..., natts`. -/
theorem attnumbered_map_fst (tm : TableMeta) :
    (attnumbered tm).map Prod.fst =
      (List.range tm.cols.length).map (· + 1) := by
  rw [← List.enum_map_fst tm.cols]
  unfold attnumbered
  rw [List.map_map, List.map_map]
  rfl

/-- The enumerated column walk is strictly ascending in its attnums. -/
theorem attnumbered_pairwise (tm : TableMeta) :
    List.Pairwise (fun a b => a.1 < b.1) (attnumbered tm) := by
  have h : List.Pairwise (· < ·) ((attnumbered tm).map Prod.fst) := by
    rw [attnumbered_map_fst]
    exact (List.pairwise_lt_range tm.cols.length).map _
      (fun a b hab => Nat.add_lt_add_right hab 1)
  exact List.pairwise_map.mp h

/-- Every pair of the enumerated column walk is a genuine (attnum, column)
pair of the table. -/
theorem attnumbered_mem (tm : TableMeta) (p : Nat × ColumnMeta)
    (hp : p ∈ attnumbered tm) : tm.cols.get? (p.1 - 1) = some p.2 := by
  obtain ⟨q, hq, hfq⟩ := List.mem_map.mp hp
  obtain ⟨k, c⟩ := q
  have hk : tm.cols[k]? = some c := List.mem_enum_iff_getElem?.mp hq
  have h1 : p.1 = k + 1 := by rw [← hfq]
  have h2 : p.2 = c := by rw [← hfq]
  rw [h1, h2, Nat.add_sub_cancel, List.get?_eq_getElem?]
  exact hk

/-- The columns of the enumerated walk are the table's columns. -/
theorem attnumbered_map_snd (tm : TableMeta) :
    (attnumbered tm).map Prod.snd = tm.cols := by
  conv_rhs => rw [← List.enum_map_snd tm.cols]
  unfold attnumbered
  rw [List.map_map]
  rfl

/-- `cassDeparseTargetList`, with its two let-bindings unfolded. -/
theorem cassDeparseTargetList_eq (tm : TableMeta) (u : List Int) :
    cassDeparseTargetList tm u =
      (if (deparseTargetListAux tm u
          (bms_is_member ((0 : Int) - FirstLowInvalidHeapAttributeNumber) u)
          (attnumbered tm) true).2 = [] then (("NULL", []) : String × List Nat)
        else deparseTargetListAux tm u
          (bms_is_member ((0 : Int) - FirstLowInvalidHeapAttributeNumber) u)
          (attnumbered tm) true) := rfl

/-- The retrieved-attrs list of `cassDeparseTargetList` is the attnums of
the retained (non-dropped, referenced) columns, in walk order. -/
theorem cassDeparseTargetList_snd (tm : TableMeta) (u : List Int) :
    (cassDeparseTargetList tm u).2 =
      ((attnumbered tm).filter (fun p => !p.2.attisdropped &&
        (bms_is_member ((0 : Int) - FirstLowInvalidHeapAttributeNumber) u ||
          bms_is_member ((p.1 : Int) - FirstLowInvalidHeapAttributeNumber)
            u))).map Prod.fst := by
  rw [← deparseTargetListAux_snd tm u _ (attnumbered tm) true]
  rw [cassDeparseTargetList_eq]
  by_cases h : (deparseTargetListAux tm u
      (bms_is_member ((0 : Int) - FirstLowInvalidHeapAttributeNumber) u)
      (attnumbered tm) true).2 = []
  · rw [if_pos h, h]
  · rw [if_neg h]

/-- If the retrieved-attrs list is empty, the emitted column list is the
literal token NULL. -/
theorem cassDeparseTargetList_null (tm : TableMeta) (u : List Int)
    (h : (cassDeparseTargetList tm u).2 = []) :
    (cassDeparseTargetList tm u).1 = "NULL" := by
  rw [cassDeparseTargetList_eq] at h ⊢
  by_cases hc : (deparseTargetListAux tm u
      (bms_is_member ((0 : Int) - FirstLowInvalidHeapAttributeNumber) u)
      (attnumbered tm) true).2 = []
  · rw [if_pos hc]
  · rw [if_neg hc] at h
    exact absurd h hc

/-- C9: for every used-column set and every relation, the retrieved
attribute list of the Select deparser is strictly ascending (hence contains
each ordinal at most once) and contains only ordinals of existing,
non-dropped columns; when no column is selected the emitted column list is
the literal token NULL, the full statement is `SELECT NULL FROM <relation>`
and the retrieved attribute list is empty. -/
theorem cassDeparseSelect_retrieved_attrs_sound (tm : TableMeta) (u : List Int) :
    List.Sorted (· < ·) (cassDeparseTargetList tm u).2 ∧
    (cassDeparseTargetList tm u).2.Nodup ∧
    (∀ i ∈ (cassDeparseTargetList tm u).2,
      ∃ c, tm.cols.get? (i - 1) = some c ∧ c.attisdropped = false) ∧
    (cassDeparseSelectSql tm u).2 = (cassDeparseTargetList tm u).2 ∧
    ((cassDeparseTargetList tm u).2 = [] →
      (cassDeparseTargetList tm u).1 = "NULL" ∧
      (cassDeparseSelectSql tm u).1 =
        "SELECT NULL FROM " ++ cassDeparseRelation tm) := by
  have hsnd := cassDeparseTargetList_snd tm u
  have hsorted : List.Sorted (· < ·) (cassDeparseTargetList tm u).2 := by
    rw [hsnd]
    refine List.pairwise_map.mpr ?_
    exact List.Pairwise.sublist (List.filter_sublist (attnumbered tm))
      (attnumbered_pairwise tm)
  refine ⟨hsorted, hsorted.nodup, ?_, rfl, ?_⟩
  · intro i hi
    rw [hsnd] at hi
    obtain ⟨p, hpfilter, hpi⟩ := List.mem_map.mp hi
    have hmem := List.mem_of_mem_filter hpfilter
    have hkeep := List.of_mem_filter hpfilter
    have hdrop : p.2.attisdropped = false := by
      rcases (Bool.and_eq_true _ _).mp hkeep with ⟨h1, _⟩
      simpa using h1
    refine ⟨p.2, ?_, hdrop⟩
    rw [← hpi]
    exact attnumbered_mem tm p hmem
  · intro hempty
    have hnull := cassDeparseTargetList_null tm u hempty
    refine ⟨hnull, ?_⟩
    show "SELECT " ++ (cassDeparseTargetList tm u).1 ++ " FROM " ++
      cassDeparseRelation tm = "SELECT NULL FROM " ++ cassDeparseRelation tm
    rw [hnull]
    rfl

/-- Witness for the Select soundness theorem at the scenario table with an
empty used-column set. -/
theorem cassDeparseSelect_retrieved_attrs_sound_witness :
    (cassDeparseSelectSql tmC []).1 =
      "SELECT NULL FROM " ++ cassDeparseRelation tmC :=
  ((cassDeparseSelect_retrieved_attrs_sound tmC []).2.2.2.2 (by decide)).2

/-- Continuation form of the UPDATE SET-clause loop: once one item has been
emitted, the remaining iterations produce comma-prefixed items. -/
theorem deparseSetClauseAux_cont (tm : TableMeta) :
    ∀ (l : List Nat) (x : String),
      x ++ deparseSetClauseAux tm l false =
        specJoinComma (x :: l.map (fun a => cassDeparseColumnRef tm a ++ " = ?")) := by
  intro l
  induction l with
  | nil =>
    intro x
    show x ++ "" = x
    exact String.append_empty x
  | cons a tl ih =>
    intro x
    show x ++ ((", " ++ cassDeparseColumnRef tm a ++ " = ?") ++
      deparseSetClauseAux tm tl false) = x ++ ", " ++
      specJoinComma ((cassDeparseColumnRef tm a ++ " = ?") ::
        tl.map (fun a => cassDeparseColumnRef tm a ++ " = ?"))
    rw [← ih (cassDeparseColumnRef tm a ++ " = ?")]
    simp only [String.append_assoc]

/-- The UPDATE SET clause is the comma-separated join of the deparsed
`<col> = ?` assignments, in target-list order. -/
theorem deparseSetClauseAux_join (tm : TableMeta) (l : List Nat) :
    deparseSetClauseAux tm l true =
      specJoinComma (l.map (fun a => cassDeparseColumnRef tm a ++ " = ?")) := by
  cases l with
  | nil => rfl
  | cons a tl =>
    show ("" ++ cassDeparseColumnRef tm a ++ " = ?") ++
      deparseSetClauseAux tm tl false = _
    rw [String.empty_append]
    exact deparseSetClauseAux_cont tm tl (cassDeparseColumnRef tm a ++ " = ?")

/-- Continuation form of the INSERT column-list loop. -/
theorem deparseInsertColsAux_cont (tm : TableMeta) :
    ∀ (l : List Nat) (x : String),
      x ++ deparseInsertColsAux tm l false =
        specJoinComma (x :: l.map (cassDeparseColumnRef tm)) := by
  intro l
  induction l with
  | nil =>
    intro x
    show x ++ "" = x
    exact String.append_empty x
  | cons a tl ih =>
    intro x
    show x ++ ((", " ++ cassDeparseColumnRef tm a) ++
      deparseInsertColsAux tm tl false) = x ++ ", " ++
      specJoinComma (cassDeparseColumnRef tm a :: tl.map (cassDeparseColumnRef tm))
    rw [← ih (cassDeparseColumnRef tm a)]
    simp only [String.append_assoc]

/-- The INSERT column list is the comma-separated join of the deparsed
column references, in target-list order. -/
theorem deparseInsertColsAux_join (tm : TableMeta) (l : List Nat) :
    deparseInsertColsAux tm l true =
      specJoinComma (l.map (cassDeparseColumnRef tm)) := by
  cases l with
  | nil => rfl
  | cons a tl =>
    show ("" ++ cassDeparseColumnRef tm a) ++ deparseInsertColsAux tm tl false = _
    rw [String.empty_append]
    exact deparseInsertColsAux_cont tm tl (cassDeparseColumnRef tm a)

/-- Continuation form of the INSERT placeholder loop. -/
theorem deparsePlaceholdersAux_cont :
    ∀ (l : List Nat) (x : String),
      x ++ deparsePlaceholdersAux l false =
        specJoinComma (x :: l.map (fun _ => "?")) := by
  intro l
  induction l with
  | nil =>
    intro x
    show x ++ "" = x
    exact String.append_empty x
  | cons a tl ih =>
    intro x
    show x ++ ((", " ++ "?") ++ deparsePlaceholdersAux tl false) =
      x ++ ", " ++ specJoinComma ("?" :: tl.map (fun _ => "?"))
    rw [← ih "?"]
    simp only [String.append_assoc]

/-- The INSERT placeholder list is the comma-separated join of one `?` per
target attribute. -/
theorem deparsePlaceholdersAux_join (l : List Nat) :
    deparsePlaceholdersAux l true = specJoinComma (l.map (fun _ => "?")) := by
  cases l with
  | nil => rfl
  | cons a tl =>
    show ("" ++ "?") ++ deparsePlaceholdersAux tl false = _
    rw [String.empty_append]
    exact deparsePlaceholdersAux_cont tl "?"

/-- C1 counterexample: for the scenario table `ks.t (id int, v1 smallint,
v2 bigint, v3 boolean)`, planning the INSERT does not produce
`INSERT INTO ks.t (id, v2, v3) VALUES (?, ?, ?)` with 3 parameters: the
target list is all four non-dropped columns, the statement names all four
(with no space before the parenthesis) and the bound-parameter count is 4. -/
theorem cassPlanInsert_three_columns_counterexample :
    cassPlanForeignModify tmC .cmdInsert [] .actNone =
      .ok ⟨"INSERT INTO ks.t(id, v1, v2, v3) VALUES (?, ?, ?, ?)",
        [1, 2, 3, 4]⟩ ∧
    fmC.p_nums = 4 ∧
    "INSERT INTO ks.t(id, v1, v2, v3) VALUES (?, ?, ?, ?)" ≠
      "INSERT INTO ks.t (id, v2, v3) VALUES (?, ?, ?)" ∧
    (4 : Nat) ≠ 3 :=
  ⟨rfl, by decide, by decide, by decide⟩

/-- C1 amended: planning an INSERT transmits every non-dropped column of
the table regardless of which columns the statement supplies; for the
scenario table the statement is `INSERT INTO ks.t(id, v1, v2, v3) VALUES
(?, ?, ?, ?)` with 4 parameters bound in column order, and executing the
scenario tuple (which leaves the smallint column v1 NULL) fails with the
smallint-NULL bind error after binding only `id`, issuing no remote call. -/
theorem cassPlanInsert_all_columns :
    cassPlanForeignModify tmC .cmdInsert [] .actNone =
      .ok ⟨"INSERT INTO ks.t(id, v1, v2, v3) VALUES (?, ?, ?, ?)",
        [1, 2, 3, 4]⟩ ∧
    fmC = cassBeginForeignModify tmC .cmdInsert
      ⟨"INSERT INTO ks.t(id, v1, v2, v3) VALUES (?, ?, ?, ?)",
        [1, 2, 3, 4]⟩ ∧
    fmC.p_nums = 4 ∧
    fmC.p_type_oids = [INT4OID, INT2OID, INT8OID, BOOLOID] ∧
    cassExecForeignInsert 0 fmC (some slotFull) (.ok ()) =
      ([ExecEvent.evBind 0 (.wInt32 1), ExecEvent.evBind 1 (.wInt16 7),
        ExecEvent.evBind 2 (.wInt64 2), ExecEvent.evBind 3 (.wBool true),
        ExecEvent.evRemoteExecute fmC.query], none) ∧
    cassExecForeignInsert 0 fmC (some slotC) (.ok ()) =
      ([ExecEvent.evBind 0 (.wInt32 1)],
        some (.nullSmallintBind "INSERT")) :=
  ⟨rfl, rfl, by decide, by decide, by decide, by decide⟩

/-- C4 counterexample: with a `column_name 'key_id'` override on the
primary-key column, the UPDATE WHERE clause still shows the raw configured
string `id` — unquoted and without the override — so not every identifier
is rendered in quoted form through the per-column override. -/
theorem cassDeparseUpdate_pk_verbatim_counterexample :
    cassDeparseUpdateSql tmQ [4] "id" =
      "UPDATE ks.t SET v3 = ? WHERE id = ?" ∧
    cassDeparseDeleteSql tmQ "id" = "DELETE FROM ks.t WHERE id = ?" ∧
    cassDeparseColumnRef tmQ 1 = "key_id" ∧
    "UPDATE ks.t SET v3 = ? WHERE id = ?" ≠
      "UPDATE ks.t SET \"v3\" = ? WHERE \"key_id\" = ?" :=
  ⟨rfl, rfl, rfl, by decide⟩

/-- Continuation form of the SELECT target-list loop: once one column has
been emitted (comma-suppression flag already false), every further
retained column is emitted as a comma-prefixed `cassDeparseColumnRef`
reference. -/
theorem deparseTargetListAux_fst_cont (tm : TableMeta) (u : List Int)
    (hw : Bool) :
    ∀ (l : List (Nat × ColumnMeta)) (x : String),
      x ++ (deparseTargetListAux tm u hw l false).1 =
        specJoinComma (x :: ((l.filter (fun p => !p.2.attisdropped &&
            (hw || bms_is_member
              ((p.1 : Int) - FirstLowInvalidHeapAttributeNumber) u))).map
          (fun p => cassDeparseColumnRef tm p.1))) := by
  intro l
  induction l with
  | nil =>
    intro x
    show x ++ "" = x
    exact String.append_empty x
  | cons hd tl ih =>
    obtain ⟨i, attr⟩ := hd
    intro x
    by_cases hdrop : attr.attisdropped
    · rw [List.filter_cons_of_neg (by simp [hdrop])]
      simp only [deparseTargetListAux, if_pos hdrop]
      exact ih x
    · by_cases hmem : (hw || bms_is_member
          ((i : Int) - FirstLowInvalidHeapAttributeNumber) u) = true
      · rw [List.filter_cons_of_pos (by simp [hdrop, hmem])]
        simp only [deparseTargetListAux, if_neg hdrop, if_pos hmem]
        show x ++ ((", " ++ cassDeparseColumnRef tm i) ++
          (deparseTargetListAux tm u hw tl false).1) =
          x ++ ", " ++ specJoinComma (cassDeparseColumnRef tm i ::
            ((tl.filter (fun p => !p.2.attisdropped &&
              (hw || bms_is_member
                ((p.1 : Int) - FirstLowInvalidHeapAttributeNumber) u))).map
              (fun p => cassDeparseColumnRef tm p.1)))
        rw [← ih (cassDeparseColumnRef tm i)]
        simp only [String.append_assoc]
      · rw [List.filter_cons_of_neg (by simp [hdrop, hmem])]
        simp only [deparseTargetListAux, if_neg hdrop, if_neg hmem]
        exact ih x

/-- The SELECT column-list text built by the target-list loop is the
comma-separated join of the deparsed column references of the retained
columns, in walk order. -/
theorem deparseTargetListAux_fst_join (tm : TableMeta) (u : List Int)
    (hw : Bool) :
    ∀ l : List (Nat × ColumnMeta),
      (deparseTargetListAux tm u hw l true).1 =
        specJoinComma ((l.filter (fun p => !p.2.attisdropped &&
            (hw || bms_is_member
              ((p.1 : Int) - FirstLowInvalidHeapAttributeNumber) u))).map
          (fun p => cassDeparseColumnRef tm p.1)) := by
  intro l
  induction l with
  | nil => rfl
  | cons hd tl ih =>
    obtain ⟨i, attr⟩ := hd
    by_cases hdrop : attr.attisdropped
    · rw [List.filter_cons_of_neg (by simp [hdrop])]
      simp only [deparseTargetListAux, if_pos hdrop]
      exact ih
    · by_cases hmem : (hw || bms_is_member
          ((i : Int) - FirstLowInvalidHeapAttributeNumber) u) = true
      · rw [List.filter_cons_of_pos (by simp [hdrop, hmem])]
        simp only [deparseTargetListAux, if_neg hdrop, if_pos hmem]
        show ("" ++ cassDeparseColumnRef tm i) ++
          (deparseTargetListAux tm u hw tl false).1 = _
        rw [String.empty_append]
        exact deparseTargetListAux_fst_cont tm u hw tl
          (cassDeparseColumnRef tm i)
      · rw [List.filter_cons_of_neg (by simp [hdrop, hmem])]
        simp only [deparseTargetListAux, if_neg hdrop, if_neg hmem]
        exact ih

/-- C4 amended: column references in the SELECT column list, the INSERT
column list and the UPDATE SET clause go through `cassDeparseColumnRef`
(per-column override else physical name, passed through
`quote_identifier`, which quotes only names that need it), while the
primary-key reference in the WHERE clause of UPDATE and DELETE is emitted
verbatim from the configured `primary_key` string, with no override lookup
and no quoting. -/
theorem cassDeparse_identifier_rendering (tm : TableMeta)
    (targetAttrs : List Nat) (primaryKey : String) :
    cassDeparseUpdateSql tm targetAttrs primaryKey =
      "UPDATE " ++ cassDeparseRelation tm ++ " SET " ++
        specJoinComma (targetAttrs.map
          (fun a => cassDeparseColumnRef tm a ++ " = ?")) ++
        " WHERE " ++ primaryKey ++ " = ?" ∧
    cassDeparseDeleteSql tm primaryKey =
      "DELETE FROM " ++ cassDeparseRelation tm ++ " WHERE " ++
        primaryKey ++ " = ?" ∧
    (targetAttrs ≠ [] →
      cassDeparseInsertSql tm targetAttrs false =
        "INSERT INTO " ++ cassDeparseRelation tm ++ "(" ++
          specJoinComma (targetAttrs.map (cassDeparseColumnRef tm)) ++
          ") VALUES (" ++
          specJoinComma (targetAttrs.map (fun _ => "?")) ++ ")") ∧
    (∀ u : List Int, (cassDeparseTargetList tm u).2 ≠ [] →
      (cassDeparseTargetList tm u).1 =
        specJoinComma ((cassDeparseTargetList tm u).2.map
          (cassDeparseColumnRef tm)) ∧
      (cassDeparseSelectSql tm u).1 =
        "SELECT " ++
          specJoinComma ((cassDeparseTargetList tm u).2.map
            (cassDeparseColumnRef tm)) ++
          " FROM " ++ cassDeparseRelation tm) := by
  refine ⟨?_, rfl, ?_, ?_⟩
  · show "UPDATE " ++ cassDeparseRelation tm ++ " SET " ++
      deparseSetClauseAux tm targetAttrs true ++
      " WHERE " ++ primaryKey ++ " = ?" = _
    rw [deparseSetClauseAux_join]
  · intro hne
    show "INSERT INTO " ++ cassDeparseRelation tm ++
      (if targetAttrs ≠ [] then
        "(" ++ deparseInsertColsAux tm targetAttrs true ++ ") VALUES (" ++
          deparsePlaceholdersAux targetAttrs true ++ ")"
      else " DEFAULT VALUES") ++
      (if false then " ON CONFLICT DO NOTHING" else "") = _
    rw [if_pos hne, if_neg (by decide : ¬(false = true)),
      deparseInsertColsAux_join, deparsePlaceholdersAux_join]
    simp only [String.append_assoc, String.append_empty]
  · intro u hne
    have hfst : (cassDeparseTargetList tm u).1 =
        specJoinComma ((cassDeparseTargetList tm u).2.map
          (cassDeparseColumnRef tm)) := by
      by_cases hc : (deparseTargetListAux tm u
          (bms_is_member ((0 : Int) - FirstLowInvalidHeapAttributeNumber) u)
          (attnumbered tm) true).2 = []
      · have hx : (cassDeparseTargetList tm u).2 = [] := by
          rw [cassDeparseTargetList_eq tm u, if_pos hc]
        exact absurd hx hne
      · rw [cassDeparseTargetList_eq tm u, if_neg hc,
          deparseTargetListAux_fst_join, deparseTargetListAux_snd,
          List.map_map]
        rfl
    refine ⟨hfst, ?_⟩
    show "SELECT " ++ (cassDeparseTargetList tm u).1 ++ " FROM " ++
      cassDeparseRelation tm = _
    rw [hfst]

/-- Witness for the identifier-rendering theorem at the scenario table,
exercising the INSERT column list and a nonempty SELECT column list. -/
theorem cassDeparse_identifier_rendering_witness :
    cassDeparseInsertSql tmC [1, 2] false =
      "INSERT INTO " ++ cassDeparseRelation tmC ++ "(" ++
        specJoinComma ([1, 2].map (cassDeparseColumnRef tmC)) ++
        ") VALUES (" ++
        specJoinComma (([1, 2] : List Nat).map (fun _ => "?")) ++ ")" ∧
    (cassDeparseSelectSql tmC [8, 10]).1 =
      "SELECT " ++
        specJoinComma ((cassDeparseTargetList tmC [8, 10]).2.map
          (cassDeparseColumnRef tmC)) ++
        " FROM " ++ cassDeparseRelation tmC :=
  ⟨(cassDeparse_identifier_rendering tmC [1, 2] "id").2.2.1 (by decide),
    ((cassDeparse_identifier_rendering tmC [1, 2] "id").2.2.2 [8, 10]
      (by decide)).2⟩

/-- C5 counterexample: on a table with columns `id` and `idx` and
`primary_key 'id'`, the hidden-key attachment attaches both columns — the
`strncmp` comparison is a prefix match, not an equality — so it is not the
case that exactly the one column whose name equals the configured key is
attached. -/
theorem cassAddForeignUpdateTargets_prefix_counterexample :
    cassAddForeignUpdateTargets tm5 = .ok [1, 2] ∧
    get_attname tm5 2 = "idx" ∧
    ("idx" : String) ≠ "id" ∧
    ([1, 2] : List Nat) ≠ [1] :=
  ⟨rfl, rfl, by decide, by decide⟩

/-- The attachment loop keeps exactly the prefix-matching columns. -/
theorem addUpdateTargetsLoop_eq_filter (primary_key : String) :
    ∀ l : List (Nat × ColumnMeta),
      addUpdateTargetsLoop primary_key l =
        (l.filter (fun p => strncmpPrefixMatch primary_key p.2.attname)).map
          Prod.fst := by
  intro l
  induction l with
  | nil => rfl
  | cons hd tl ih =>
    obtain ⟨i, att⟩ := hd
    by_cases h : strncmpPrefixMatch primary_key att.attname
    · simp [addUpdateTargetsLoop, h, ih]
    · simp [addUpdateTargetsLoop, h, ih]

/-- C5 amended: before planning an UPDATE or DELETE, the configured
primary-key name is matched against the columns as a prefix (the `strncmp`
comparison): the operation fails with a configuration error if no
`primary_key` option is configured or if no column name has the configured
string as a prefix, and otherwise every column whose name has the
configured string as a prefix is attached as a hidden key column, in
column order. -/
theorem cassAddForeignUpdateTargets_prefix_match (tm : TableMeta) :
    (cassGetPKOption tm = none →
      cassAddForeignUpdateTargets tm = .error .noPrimaryKeyOption) ∧
    (∀ pk, cassGetPKOption tm = some pk →
      ((∀ c ∈ tm.cols, strncmpPrefixMatch pk c.attname = false) →
        cassAddForeignUpdateTargets tm = .error (.pkNotInTable pk)) ∧
      ((∃ c ∈ tm.cols, strncmpPrefixMatch pk c.attname = true) →
        cassAddForeignUpdateTargets tm =
          .ok (((attnumbered tm).filter
            (fun p => strncmpPrefixMatch pk p.2.attname)).map Prod.fst))) := by
  constructor
  · intro h
    simp [cassAddForeignUpdateTargets, h]
  · intro pk hpk
    constructor
    · intro hnone
      have hfilter : (attnumbered tm).filter
          (fun p => strncmpPrefixMatch pk p.2.attname) = [] := by
        rw [List.filter_eq_nil_iff]
        intro p hp
        have hsnd : p.2 ∈ tm.cols := by
          rw [← attnumbered_map_snd tm]
          exact List.mem_map_of_mem Prod.snd hp
        simp [hnone p.2 hsnd]
      simp [cassAddForeignUpdateTargets, hpk,
        addUpdateTargetsLoop_eq_filter, hfilter]
    · intro hsome
      obtain ⟨c, hc, hmatch⟩ := hsome
      obtain ⟨p, hp, hpc⟩ := List.mem_map.mp
        (by rw [attnumbered_map_snd]; exact hc :
          c ∈ (attnumbered tm).map Prod.snd)
      have hpfilter : p ∈ (attnumbered tm).filter
          (fun p => strncmpPrefixMatch pk p.2.attname) :=
        List.mem_filter.mpr ⟨hp, by rw [hpc]; exact hmatch⟩
      have hne : addUpdateTargetsLoop pk (attnumbered tm) ≠ [] := by
        rw [addUpdateTargetsLoop_eq_filter]
        intro hcontra
        rw [List.map_eq_nil_iff] at hcontra
        rw [hcontra] at hpfilter
        exact List.not_mem_nil p hpfilter
      simp only [cassAddForeignUpdateTargets, hpk, if_neg hne]
      rw [addUpdateTargetsLoop_eq_filter]

/-- Witness for the prefix-match theorem at the two-column table. -/
theorem cassAddForeignUpdateTargets_prefix_match_witness :
    cassAddForeignUpdateTargets tm5 =
      .ok (((attnumbered tm5).filter
        (fun p => strncmpPrefixMatch "id" p.2.attname)).map Prod.fst) :=
  (((cassAddForeignUpdateTargets_prefix_match tm5).2 "id" rfl).2) (by decide)

/-- C2: `bind_cass_statement_param` has no arm for the uuid and inet type
OIDs, so writing any uuid or inet value through the INSERT bind path raises
the unsupported-type error instead of binding — the claimed round-trip
cannot begin for these documented read/write types. -/
theorem bind_uuid_inet_unsupported (tzoffset : Int) (value : PgDatum) :
    bind_cass_statement_param tzoffset UUIDOID value =
      .error (.unsupportedType UUIDOID) ∧
    bind_cass_statement_param tzoffset INETOID value =
      .error (.unsupportedType INETOID) :=
  ⟨rfl, rfl⟩

/-- C3: when the remote execute of a batched fetch returns a non-success
status, `fetch_more_data` surfaces the error by the non-local exit of
`pgcass_report_error(ERROR, ...)`; the `eof_reached = true` assignment
written after that call never executes, so the end-of-data flag is left
unchanged (false for an in-progress scan). -/
theorem fetch_more_data_error_leaves_eof (st : CassFdwScanState)
    (msg : String) :
    fetch_more_data st (.error msg) =
      .error (msg, { st with tuples := none }) ∧
    ({ st with tuples := none } : CassFdwScanState).eof_reached =
      st.eof_reached :=
  ⟨rfl, rfl⟩

/-- C10: the updatability report unconditionally declares INSERT, UPDATE
and DELETE supported — bit `1 << CMD_*` set for all three, value 28 for
every relation, with or without a `primary_key` option — while the
missing-primary-key configuration error is raised only by
`cassAddForeignUpdateTargets`, the hook that runs when an UPDATE or DELETE
is planned. -/
theorem cassIsForeignRelUpdatable_unconditional (tm tm2 : TableMeta) :
    cassIsForeignRelUpdatable tm = 28 ∧
    cassIsForeignRelUpdatable tm = cassIsForeignRelUpdatable tm2 ∧
    Nat.testBit (cassIsForeignRelUpdatable tm) CmdType.cmdInsert.toNat = true ∧
    Nat.testBit (cassIsForeignRelUpdatable tm) CmdType.cmdUpdate.toNat = true ∧
    Nat.testBit (cassIsForeignRelUpdatable tm) CmdType.cmdDelete.toNat = true ∧
    (cassGetPKOption tm = none →
      cassAddForeignUpdateTargets tm = .error .noPrimaryKeyOption) := by
  refine ⟨rfl, rfl, (by decide : Nat.testBit 28 3 = true),
    (by decide : Nat.testBit 28 2 = true),
    (by decide : Nat.testBit 28 4 = true), ?_⟩
  intro h
  simp [cassAddForeignUpdateTargets, h]

/-- Witness for the updatability theorem at the table with no primary key
configured. -/
theorem cassIsForeignRelUpdatable_unconditional_witness :
    cassIsForeignRelUpdatable tmNoPK = 28 ∧
    cassAddForeignUpdateTargets tmNoPK = .error .noPrimaryKeyOption :=
  ⟨(cassIsForeignRelUpdatable_unconditional tmNoPK tmNoPK).1,
    (cassIsForeignRelUpdatable_unconditional tmNoPK tmNoPK).2.2.2.2.2 rfl⟩

/-- Step equation: a NULL value of 16-bit-integer parameter type stops the
binding loop with the smallint-NULL error. -/
theorem bindTargetAttrsLoop_cons_null_int2 (tzoffset : Int)
    (fm : CassFdwModifyState) (opname : String)
    (slot : Nat → Option PgDatum) (a : Nat) (tl : List Nat) (p0 : Nat)
    (hs : slot a = none) (ht : fm.p_type_oids.getD p0 0 = INT2OID) :
    bindTargetAttrsLoop tzoffset fm opname slot (a :: tl) p0 =
      ([], some (.nullSmallintBind opname)) := by
  simp only [bindTargetAttrsLoop, hs, cassStatementBindNull, if_pos ht]

/-- Step equation: a NULL value of any other parameter type is bound as an
ordinary NULL and the loop continues. -/
theorem bindTargetAttrsLoop_cons_null_ok (tzoffset : Int)
    (fm : CassFdwModifyState) (opname : String)
    (slot : Nat → Option PgDatum) (a : Nat) (tl : List Nat) (p0 : Nat)
    (hs : slot a = none) (ht : fm.p_type_oids.getD p0 0 ≠ INT2OID) :
    bindTargetAttrsLoop tzoffset fm opname slot (a :: tl) p0 =
      (ExecEvent.evBindNull p0 ::
        (bindTargetAttrsLoop tzoffset fm opname slot tl (p0 + 1)).1,
        (bindTargetAttrsLoop tzoffset fm opname slot tl (p0 + 1)).2) := by
  simp only [bindTargetAttrsLoop, hs, cassStatementBindNull, if_neg ht]

/-- Step equation: a failing typed bind stops the loop with its error. -/
theorem bindTargetAttrsLoop_cons_some_err (tzoffset : Int)
    (fm : CassFdwModifyState) (opname : String)
    (slot : Nat → Option PgDatum) (a : Nat) (tl : List Nat) (p0 : Nat)
    (v : PgDatum) (e : FdwError) (hs : slot a = some v)
    (hb : bind_cass_statement_param tzoffset
      (fm.p_type_oids.getD p0 0) v = .error e) :
    bindTargetAttrsLoop tzoffset fm opname slot (a :: tl) p0 =
      ([], some e) := by
  simp only [bindTargetAttrsLoop, hs, hb]

/-- Step equation: a successful typed bind emits its event and the loop
continues. -/
theorem bindTargetAttrsLoop_cons_some_ok (tzoffset : Int)
    (fm : CassFdwModifyState) (opname : String)
    (slot : Nat → Option PgDatum) (a : Nat) (tl : List Nat) (p0 : Nat)
    (v : PgDatum) (w : CassWireValue) (hs : slot a = some v)
    (hb : bind_cass_statement_param tzoffset
      (fm.p_type_oids.getD p0 0) v = .ok w) :
    bindTargetAttrsLoop tzoffset fm opname slot (a :: tl) p0 =
      (ExecEvent.evBind p0 w ::
        (bindTargetAttrsLoop tzoffset fm opname slot tl (p0 + 1)).1,
        (bindTargetAttrsLoop tzoffset fm opname slot tl (p0 + 1)).2) := by
  simp only [bindTargetAttrsLoop, hs, hb]

/-- The parameter-binding loop performs no remote call: its trace contains
only bind events. -/
theorem bindTargetAttrsLoop_no_execute (tzoffset : Int)
    (fm : CassFdwModifyState) (opname : String)
    (slot : Nat → Option PgDatum) :
    ∀ (l : List Nat) (p0 : Nat) (q : String),
      ExecEvent.evRemoteExecute q ∉
        (bindTargetAttrsLoop tzoffset fm opname slot l p0).1 := by
  intro l
  induction l with
  | nil => intro p0 q; simp [bindTargetAttrsLoop]
  | cons a tl ih =>
    intro p0 q
    cases hs : slot a with
    | none =>
      by_cases ht : fm.p_type_oids.getD p0 0 = INT2OID
      · rw [bindTargetAttrsLoop_cons_null_int2 tzoffset fm opname slot
          a tl p0 hs ht]
        simp
      · rw [bindTargetAttrsLoop_cons_null_ok tzoffset fm opname slot
          a tl p0 hs ht]
        intro hmem
        rcases List.mem_cons.mp hmem with hhd | htl
        · exact absurd hhd (by simp)
        · exact absurd htl (ih (p0 + 1) q)
    | some v =>
      cases hb : bind_cass_statement_param tzoffset
          (fm.p_type_oids.getD p0 0) v with
      | error e =>
        rw [bindTargetAttrsLoop_cons_some_err tzoffset fm opname slot
          a tl p0 v e hs hb]
        simp
      | ok w =>
        rw [bindTargetAttrsLoop_cons_some_ok tzoffset fm opname slot
          a tl p0 v w hs hb]
        intro hmem
        rcases List.mem_cons.mp hmem with hhd | htl
        · exact absurd hhd (by simp)
        · exact absurd htl (ih (p0 + 1) q)

/-- Every NULL bind the loop performs is at a position whose parameter type
is not the 16-bit integer type (otherwise the loop would have errored
instead of binding). -/
theorem bindTargetAttrsLoop_bindNull_not_int2 (tzoffset : Int)
    (fm : CassFdwModifyState) (opname : String)
    (slot : Nat → Option PgDatum) :
    ∀ (l : List Nat) (p0 m : Nat),
      ExecEvent.evBindNull m ∈
        (bindTargetAttrsLoop tzoffset fm opname slot l p0).1 →
      fm.p_type_oids.getD m 0 ≠ INT2OID := by
  intro l
  induction l with
  | nil => intro p0 m hmem; simp [bindTargetAttrsLoop] at hmem
  | cons a tl ih =>
    intro p0 m hmem
    cases hs : slot a with
    | none =>
      by_cases ht : fm.p_type_oids.getD p0 0 = INT2OID
      · rw [bindTargetAttrsLoop_cons_null_int2 tzoffset fm opname slot
          a tl p0 hs ht] at hmem
        simp at hmem
      · rw [bindTargetAttrsLoop_cons_null_ok tzoffset fm opname slot
          a tl p0 hs ht] at hmem
        rcases List.mem_cons.mp hmem with hhd | htl
        · have hm : m = p0 := by injection hhd
          rw [hm]
          exact ht
        · exact ih (p0 + 1) m htl
    | some v =>
      cases hb : bind_cass_statement_param tzoffset
          (fm.p_type_oids.getD p0 0) v with
      | error e =>
        rw [bindTargetAttrsLoop_cons_some_err tzoffset fm opname slot
          a tl p0 v e hs hb] at hmem
        simp at hmem
      | ok w =>
        rw [bindTargetAttrsLoop_cons_some_ok tzoffset fm opname slot
          a tl p0 v w hs hb] at hmem
        rcases List.mem_cons.mp hmem with hhd | htl
        · exact absurd hhd (by simp)
        · exact ih (p0 + 1) m htl

/-- If some target attribute holds a NULL of 16-bit-integer parameter type,
the binding loop terminates in an error. -/
theorem bindTargetAttrsLoop_int2null_error (tzoffset : Int)
    (fm : CassFdwModifyState) (opname : String)
    (slot : Nat → Option PgDatum) :
    ∀ (l : List Nat) (p0 k : Nat) (hk : k < l.length),
      slot (l.get ⟨k, hk⟩) = none →
      fm.p_type_oids.getD (p0 + k) 0 = INT2OID →
      ((bindTargetAttrsLoop tzoffset fm opname slot l p0).2).isSome := by
  intro l
  induction l with
  | nil => intro p0 k hk; exact absurd hk (by simp)
  | cons a tl ih =>
    intro p0 k hk hnull htype
    cases hs : slot a with
    | none =>
      by_cases ht : fm.p_type_oids.getD p0 0 = INT2OID
      · rw [bindTargetAttrsLoop_cons_null_int2 tzoffset fm opname slot
          a tl p0 hs ht]
        rfl
      · cases k with
        | zero =>
          exfalso
          exact ht (by rw [← Nat.add_zero p0]; exact htype)
        | succ kk =>
          rw [bindTargetAttrsLoop_cons_null_ok tzoffset fm opname slot
            a tl p0 hs ht]
          have hkk : kk < tl.length := Nat.lt_of_succ_lt_succ hk
          have htype2 : fm.p_type_oids.getD ((p0 + 1) + kk) 0 = INT2OID := by
            rw [show p0 + 1 + kk = p0 + (kk + 1) from by omega]
            exact htype
          exact ih (p0 + 1) kk hkk hnull htype2
    | some v =>
      cases k with
      | zero =>
        exact absurd (hs ▸ hnull) (by simp)
      | succ kk =>
        cases hb : bind_cass_statement_param tzoffset
            (fm.p_type_oids.getD p0 0) v with
        | error e =>
          rw [bindTargetAttrsLoop_cons_some_err tzoffset fm opname slot
            a tl p0 v e hs hb]
          rfl
        | ok w =>
          rw [bindTargetAttrsLoop_cons_some_ok tzoffset fm opname slot
            a tl p0 v w hs hb]
          have hkk : kk < tl.length := Nat.lt_of_succ_lt_succ hk
          have htype2 : fm.p_type_oids.getD ((p0 + 1) + kk) 0 = INT2OID := by
            rw [show p0 + 1 + kk = p0 + (kk + 1) from by omega]
            exact htype
          exact ih (p0 + 1) kk hkk hnull htype2

/-- When the binding loop succeeds, its trace binds exactly the target
attnums, in list order, at consecutive positions. -/
theorem bindTargetAttrsLoop_ok_trace (tzoffset : Int)
    (fm : CassFdwModifyState) (opname : String)
    (slot : Nat → Option PgDatum) :
    ∀ (l : List Nat) (p0 : Nat),
      (bindTargetAttrsLoop tzoffset fm opname slot l p0).2 = none →
      TraceBinds tzoffset fm slot l p0
        (bindTargetAttrsLoop tzoffset fm opname slot l p0).1 := by
  intro l
  induction l with
  | nil => intro p0 _; exact trivial
  | cons a tl ih =>
    intro p0 h2
    cases hs : slot a with
    | none =>
      by_cases ht : fm.p_type_oids.getD p0 0 = INT2OID
      · rw [bindTargetAttrsLoop_cons_null_int2 tzoffset fm opname slot
          a tl p0 hs ht] at h2
        exact absurd h2 (by simp)
      · rw [bindTargetAttrsLoop_cons_null_ok tzoffset fm opname slot
          a tl p0 hs ht] at h2 ⊢
        refine ⟨?_, ih (p0 + 1) h2⟩
        show (match slot a with
          | none => fm.p_type_oids.getD p0 0 ≠ INT2OID ∧
              ExecEvent.evBindNull p0 = ExecEvent.evBindNull p0
          | some v => ∃ w, bind_cass_statement_param tzoffset
              (fm.p_type_oids.getD p0 0) v = .ok w ∧
              ExecEvent.evBindNull p0 = ExecEvent.evBind p0 w : Prop)
        rw [hs]
        exact ⟨ht, rfl⟩
    | some v =>
      cases hb : bind_cass_statement_param tzoffset
          (fm.p_type_oids.getD p0 0) v with
      | error e =>
        rw [bindTargetAttrsLoop_cons_some_err tzoffset fm opname slot
          a tl p0 v e hs hb] at h2
        exact absurd h2 (by simp)
      | ok w =>
        rw [bindTargetAttrsLoop_cons_some_ok tzoffset fm opname slot
          a tl p0 v w hs hb] at h2 ⊢
        refine ⟨?_, ih (p0 + 1) h2⟩
        show (match slot a with
          | none => fm.p_type_oids.getD p0 0 ≠ INT2OID ∧
              ExecEvent.evBind p0 w = ExecEvent.evBindNull p0
          | some v => ∃ w2, bind_cass_statement_param tzoffset
              (fm.p_type_oids.getD p0 0) v = .ok w2 ∧
              ExecEvent.evBind p0 w = ExecEvent.evBind p0 w2 : Prop)
        rw [hs]
        exact ⟨w, hb, rfl⟩

/-- `cassExecForeignInsert` when the binding loop fails: the trace is the
loop's partial bind trace and the loop's error is raised — no remote call,
and in particular no NULL was bound at the failing position. -/
theorem cassExecForeignInsert_boundErr (tzoffset : Int)
    (fm : CassFdwModifyState) (slot : Nat → Option PgDatum)
    (remote : Except String Unit) (e : FdwError)
    (hne : fm.target_attrs ≠ [])
    (he : (bindTargetAttrsLoop tzoffset fm "INSERT" slot
      fm.target_attrs 0).2 = some e) :
    cassExecForeignInsert tzoffset fm (some slot) remote =
      ((bindTargetAttrsLoop tzoffset fm "INSERT" slot fm.target_attrs 0).1,
        some e) := by
  simp only [cassExecForeignInsert, if_pos hne, he]

/-- `cassExecForeignInsert` when the binding loop succeeds: the trace is
the loop's bind trace followed by the remote execute of the statement. -/
theorem cassExecForeignInsert_ok (tzoffset : Int)
    (fm : CassFdwModifyState) (slot : Nat → Option PgDatum)
    (remote : Except String Unit)
    (hok : (bindTargetAttrsLoop tzoffset fm "INSERT" slot
      fm.target_attrs 0).2 = none) :
    (cassExecForeignInsert tzoffset fm (some slot) remote).1 =
      (bindTargetAttrsLoop tzoffset fm "INSERT" slot fm.target_attrs 0).1 ++
        [ExecEvent.evRemoteExecute fm.query] := by
  by_cases hne : fm.target_attrs = []
  · simp only [cassExecForeignInsert, hne]
    cases remote with
    | ok u => simp [bindTargetAttrsLoop]
    | error msg => simp [bindTargetAttrsLoop]
  · simp only [cassExecForeignInsert, if_pos hne, hok]
    cases remote with
    | ok u => rfl
    | error msg => rfl

/-- `cassExecPKPredWrite` when the binding loop fails on a non-empty target
list: the loop's partial trace, the loop's error, no remote call. -/
theorem cassExecPKPredWrite_boundErr (tzoffset : Int)
    (fm : CassFdwModifyState) (slot : Nat → Option PgDatum)
    (planKey : Option PgDatum) (remote : Except String Unit)
    (cqlOpName : String) (e : FdwError)
    (hne : fm.target_attrs ≠ [])
    (he : (bindTargetAttrsLoop tzoffset fm cqlOpName slot
      fm.target_attrs 0).2 = some e) :
    cassExecPKPredWrite tzoffset fm (some slot) planKey remote cqlOpName =
      ((bindTargetAttrsLoop tzoffset fm cqlOpName slot fm.target_attrs 0).1,
        some e) := by
  simp only [cassExecPKPredWrite, if_pos hne, he]

/-- `cassExecPKPredWrite` when the binding loop succeeds but the carried
primary-key value is NULL: the "primary key contains a NULL value" error is
raised before any remote call. -/
theorem cassExecPKPredWrite_nullKey (tzoffset : Int)
    (fm : CassFdwModifyState) (slot : Nat → Option PgDatum)
    (remote : Except String Unit) (cqlOpName : String)
    (hok : (bindTargetAttrsLoop tzoffset fm cqlOpName slot
      fm.target_attrs 0).2 = none) :
    cassExecPKPredWrite tzoffset fm (some slot) none remote cqlOpName =
      ((bindTargetAttrsLoop tzoffset fm cqlOpName slot fm.target_attrs 0).1,
        some .nullPrimaryKey) := by
  by_cases hne : fm.target_attrs = []
  · simp only [cassExecPKPredWrite, hne]
    simp [bindTargetAttrsLoop]
  · simp only [cassExecPKPredWrite, if_pos hne, hok]

/-- `cassExecPKPredWrite` when the loop succeeds and the key binds: the
loop's trace, then the key bound at the final position, then the remote
execute. -/
theorem cassExecPKPredWrite_ok (tzoffset : Int)
    (fm : CassFdwModifyState) (slot : Nat → Option PgDatum)
    (v : PgDatum) (w : CassWireValue) (remote : Except String Unit)
    (cqlOpName : String)
    (hok : (bindTargetAttrsLoop tzoffset fm cqlOpName slot
      fm.target_attrs 0).2 = none)
    (hb : bind_cass_statement_param tzoffset
      (fm.p_type_oids.getD fm.target_attrs.length 0) v = .ok w) :
    (cassExecPKPredWrite tzoffset fm (some slot) (some v) remote
      cqlOpName).1 =
      (bindTargetAttrsLoop tzoffset fm cqlOpName slot fm.target_attrs 0).1 ++
        [ExecEvent.evBind fm.target_attrs.length w,
          ExecEvent.evRemoteExecute fm.query] := by
  by_cases hne : fm.target_attrs = []
  · simp only [cassExecPKPredWrite, hne]
    rw [hne] at hb
    simp only [hb]
    cases remote with
    | ok u => simp [bindTargetAttrsLoop, hne]
    | error msg => simp [bindTargetAttrsLoop, hne]
  · simp only [cassExecPKPredWrite, if_pos hne, hok, hb]
    cases remote with
    | ok u => rfl
    | error msg => rfl

/-- C6: in every INSERT or UPDATE/DELETE-style execution, a NULL tuple
value at a target position of 16-bit-integer parameter type makes the
operation fail before any remote call is issued and before that NULL is
bound; a NULL of any other type goes through the ordinary NULL bind, while
the 16-bit case raises the descriptive smallint-NULL error. -/
theorem cassExec_null_smallint_guard :
    (∀ (tzoffset : Int) (fm : CassFdwModifyState)
        (slot : Nat → Option PgDatum) (remote : Except String Unit)
        (k : Nat) (hk : k < fm.target_attrs.length),
      slot (fm.target_attrs.get ⟨k, hk⟩) = none →
      fm.p_type_oids.getD k 0 = INT2OID →
      ((cassExecForeignInsert tzoffset fm (some slot) remote).2).isSome ∧
      (∀ q, ExecEvent.evRemoteExecute q ∉
        (cassExecForeignInsert tzoffset fm (some slot) remote).1) ∧
      ExecEvent.evBindNull k ∉
        (cassExecForeignInsert tzoffset fm (some slot) remote).1) ∧
    (∀ (tzoffset : Int) (fm : CassFdwModifyState)
        (slot : Nat → Option PgDatum) (planKey : Option PgDatum)
        (remote : Except String Unit) (cqlOpName : String)
        (k : Nat) (hk : k < fm.target_attrs.length),
      slot (fm.target_attrs.get ⟨k, hk⟩) = none →
      fm.p_type_oids.getD k 0 = INT2OID →
      ((cassExecPKPredWrite tzoffset fm (some slot) planKey remote
        cqlOpName).2).isSome ∧
      (∀ q, ExecEvent.evRemoteExecute q ∉
        (cassExecPKPredWrite tzoffset fm (some slot) planKey remote
          cqlOpName).1) ∧
      ExecEvent.evBindNull k ∉
        (cassExecPKPredWrite tzoffset fm (some slot) planKey remote
          cqlOpName).1) ∧
    (∀ (ptypeid : Nat) (opname : String), ptypeid ≠ INT2OID →
      cassStatementBindNull ptypeid opname = .ok ()) ∧
    (∀ opname : String, cassStatementBindNull INT2OID opname =
      .error (.nullSmallintBind opname)) := by
  refine ⟨?_, ?_, ?_, ?_⟩
  · intro tzoffset fm slot remote k hk hnull htype
    have hne : fm.target_attrs ≠ [] :=
      List.ne_nil_of_length_pos (Nat.lt_of_le_of_lt (Nat.zero_le k) hk)
    have htype0 : fm.p_type_oids.getD (0 + k) 0 = INT2OID := by
      rw [Nat.zero_add]; exact htype
    have hsome := bindTargetAttrsLoop_int2null_error tzoffset fm "INSERT"
      slot fm.target_attrs 0 k hk hnull htype0
    obtain ⟨e, he⟩ := Option.isSome_iff_exists.mp hsome
    rw [cassExecForeignInsert_boundErr tzoffset fm slot remote e hne he]
    refine ⟨by simp, ?_, ?_⟩
    · intro q
      exact bindTargetAttrsLoop_no_execute tzoffset fm "INSERT" slot
        fm.target_attrs 0 q
    · intro hmem
      exact absurd htype (bindTargetAttrsLoop_bindNull_not_int2 tzoffset fm
        "INSERT" slot fm.target_attrs 0 k hmem)
  · intro tzoffset fm slot planKey remote cqlOpName k hk hnull htype
    have hne : fm.target_attrs ≠ [] :=
      List.ne_nil_of_length_pos (Nat.lt_of_le_of_lt (Nat.zero_le k) hk)
    have htype0 : fm.p_type_oids.getD (0 + k) 0 = INT2OID := by
      rw [Nat.zero_add]; exact htype
    have hsome := bindTargetAttrsLoop_int2null_error tzoffset fm cqlOpName
      slot fm.target_attrs 0 k hk hnull htype0
    obtain ⟨e, he⟩ := Option.isSome_iff_exists.mp hsome
    rw [cassExecPKPredWrite_boundErr tzoffset fm slot planKey remote
      cqlOpName e hne he]
    refine ⟨by simp, ?_, ?_⟩
    · intro q
      exact bindTargetAttrsLoop_no_execute tzoffset fm cqlOpName slot
        fm.target_attrs 0 q
    · intro hmem
      exact absurd htype (bindTargetAttrsLoop_bindNull_not_int2 tzoffset fm
        cqlOpName slot fm.target_attrs 0 k hmem)
  · intro ptypeid opname hne
    simp [cassStatementBindNull, hne]
  · intro opname
    rfl

/-- Witness for the smallint-NULL guard at the scenario INSERT: the tuple
leaves the smallint column v1 (position 1, type OID 21) NULL. -/
theorem cassExec_null_smallint_guard_witness :
    slotC (fmC.target_attrs.get ⟨1, by decide⟩) = none ∧
    fmC.p_type_oids.getD 1 0 = INT2OID ∧
    ((cassExecForeignInsert 0 fmC (some slotC) (.ok ())).2).isSome := by
  refine ⟨by decide, by decide, ?_⟩
  exact (cassExec_null_smallint_guard.1 0 fmC slotC (.ok ()) 1 (by decide)
    (by decide) (by decide)).1

/-- C7: an UPDATE/DELETE execution whose carried primary-key value is NULL
always fails and issues no remote call; when the target-list binding itself
succeeded, the error raised is precisely the "primary key contains a NULL
value" error. -/
theorem cassExecPKPredWrite_null_key_guard :
    (∀ (tzoffset : Int) (fm : CassFdwModifyState)
        (slot : Nat → Option PgDatum) (remote : Except String Unit)
        (cqlOpName : String),
      ((cassExecPKPredWrite tzoffset fm (some slot) none remote
        cqlOpName).2).isSome ∧
      (∀ q, ExecEvent.evRemoteExecute q ∉
        (cassExecPKPredWrite tzoffset fm (some slot) none remote
          cqlOpName).1) ∧
      ((bindTargetAttrsLoop tzoffset fm cqlOpName slot
          fm.target_attrs 0).2 = none →
        (cassExecPKPredWrite tzoffset fm (some slot) none remote
          cqlOpName).2 = some .nullPrimaryKey)) ∧
    (∀ (tzoffset : Int) (fm : CassFdwModifyState)
        (remote : Except String Unit) (cqlOpName : String),
      cassExecPKPredWrite tzoffset fm none none remote cqlOpName =
        ([], some .nullPrimaryKey)) := by
  constructor
  · intro tzoffset fm slot remote cqlOpName
    cases hl : (bindTargetAttrsLoop tzoffset fm cqlOpName slot
        fm.target_attrs 0).2 with
    | some e =>
      by_cases hne : fm.target_attrs = []
      · exfalso
        rw [hne] at hl
        simp [bindTargetAttrsLoop] at hl
      · rw [cassExecPKPredWrite_boundErr tzoffset fm slot none remote
          cqlOpName e hne hl]
        refine ⟨by simp, ?_, ?_⟩
        · intro q
          exact bindTargetAttrsLoop_no_execute tzoffset fm cqlOpName slot
            fm.target_attrs 0 q
        · intro hok
          exact Option.noConfusion hok
    | none =>
      rw [cassExecPKPredWrite_nullKey tzoffset fm slot remote cqlOpName hl]
      refine ⟨by simp, ?_, fun _ => rfl⟩
      intro q
      exact bindTargetAttrsLoop_no_execute tzoffset fm cqlOpName slot
        fm.target_attrs 0 q
  · intro tzoffset fm remote cqlOpName
    rfl

/-- Witness for the NULL-key guard: an UPDATE on the scenario table with a
fully bound target list and a NULL carried key raises the primary-key-NULL
error. -/
theorem cassExecPKPredWrite_null_key_guard_witness :
    (cassExecPKPredWrite 0 fmC (some slotFull) none (.ok ()) "UPDATE").2 =
      some .nullPrimaryKey :=
  (cassExecPKPredWrite_null_key_guard.1 0 fmC slotFull (.ok ())
    "UPDATE").2.2 (by decide)

/-- The UPDATE SET clause contains exactly one placeholder per target
attribute (column names contributing none). -/
theorem countQMarks_setClause (tm : TableMeta) :
    ∀ (l : List Nat),
      (∀ a ∈ l, qmarkChar ∉ (cassDeparseColumnRef tm a).toList) →
      ∀ first, countQMarks (deparseSetClauseAux tm l first) = l.length := by
  intro l
  induction l with
  | nil => intro _ first; rfl
  | cons a tl ih =>
    intro hq first
    show countQMarks ((if !first then ", " else "") ++
      cassDeparseColumnRef tm a ++ " = ?" ++
      deparseSetClauseAux tm tl false) = tl.length + 1
    rw [countQMarks_append, countQMarks_append, countQMarks_append]
    have h1 : countQMarks (if !first then ", " else "") = 0 := by
      cases first <;> rfl
    have h2 : countQMarks (cassDeparseColumnRef tm a) = 0 :=
      List.count_eq_zero.mpr (hq a (List.mem_cons_self a tl))
    rw [h1, h2, ih (fun b hb => hq b (List.mem_cons_of_mem a hb)) false]
    show 0 + 0 + countQMarks " = ?" + tl.length = tl.length + 1
    rw [(by rfl : countQMarks " = ?" = 1)]
    omega

/-- The INSERT column list contains no placeholder. -/
theorem countQMarks_insertCols (tm : TableMeta) :
    ∀ (l : List Nat),
      (∀ a ∈ l, qmarkChar ∉ (cassDeparseColumnRef tm a).toList) →
      ∀ first, countQMarks (deparseInsertColsAux tm l first) = 0 := by
  intro l
  induction l with
  | nil => intro _ first; rfl
  | cons a tl ih =>
    intro hq first
    show countQMarks ((if !first then ", " else "") ++
      cassDeparseColumnRef tm a ++ deparseInsertColsAux tm tl false) = 0
    rw [countQMarks_append, countQMarks_append]
    have h1 : countQMarks (if !first then ", " else "") = 0 := by
      cases first <;> rfl
    have h2 : countQMarks (cassDeparseColumnRef tm a) = 0 :=
      List.count_eq_zero.mpr (hq a (List.mem_cons_self a tl))
    rw [h1, h2, ih (fun b hb => hq b (List.mem_cons_of_mem a hb)) false]

/-- The INSERT VALUES list contains exactly one placeholder per target
attribute. -/
theorem countQMarks_placeholders :
    ∀ (l : List Nat) (first : Bool),
      countQMarks (deparsePlaceholdersAux l first) = l.length := by
  intro l
  induction l with
  | nil => intro first; rfl
  | cons a tl ih =>
    intro first
    show countQMarks ((if !first then ", " else "") ++ "?" ++
      deparsePlaceholdersAux tl false) = tl.length + 1
    rw [countQMarks_append, countQMarks_append]
    have h1 : countQMarks (if !first then ", " else "") = 0 := by
      cases first <;> rfl
    rw [h1, ih false]
    show 0 + countQMarks "?" + tl.length = tl.length + 1
    rw [(by rfl : countQMarks "?" = 1)]
    omega

/-- C8: the INSERT and UPDATE execution paths bind one parameter per target
column in exactly the target list's order at positions 0, 1, ...; the
UPDATE/DELETE path binds the carried key value as the final parameter,
after all target-list parameters; and the deparsed statements carry the
matching number of positional placeholders (one per target column for
INSERT, one per target column plus the trailing key predicate for UPDATE,
exactly the key predicate for DELETE). -/
theorem cassExec_bind_order :
    (∀ (tzoffset : Int) (fm : CassFdwModifyState)
        (slot : Nat → Option PgDatum) (remote : Except String Unit),
      (bindTargetAttrsLoop tzoffset fm "INSERT" slot
        fm.target_attrs 0).2 = none →
      TraceBinds tzoffset fm slot fm.target_attrs 0
        (bindTargetAttrsLoop tzoffset fm "INSERT" slot fm.target_attrs 0).1 ∧
      (cassExecForeignInsert tzoffset fm (some slot) remote).1 =
        (bindTargetAttrsLoop tzoffset fm "INSERT" slot
          fm.target_attrs 0).1 ++
        [ExecEvent.evRemoteExecute fm.query]) ∧
    (∀ (tzoffset : Int) (fm : CassFdwModifyState)
        (slot : Nat → Option PgDatum) (v : PgDatum) (w : CassWireValue)
        (remote : Except String Unit) (cqlOpName : String),
      (bindTargetAttrsLoop tzoffset fm cqlOpName slot
        fm.target_attrs 0).2 = none →
      bind_cass_statement_param tzoffset
        (fm.p_type_oids.getD fm.target_attrs.length 0) v = .ok w →
      TraceBinds tzoffset fm slot fm.target_attrs 0
        (bindTargetAttrsLoop tzoffset fm cqlOpName slot
          fm.target_attrs 0).1 ∧
      (cassExecPKPredWrite tzoffset fm (some slot) (some v) remote
        cqlOpName).1 =
        (bindTargetAttrsLoop tzoffset fm cqlOpName slot
          fm.target_attrs 0).1 ++
        [ExecEvent.evBind fm.target_attrs.length w,
          ExecEvent.evRemoteExecute fm.query]) ∧
    (∀ (tm : TableMeta) (targetAttrs : List Nat) (primaryKey : String),
      (∀ a ∈ targetAttrs,
        qmarkChar ∉ (cassDeparseColumnRef tm a).toList) →
      qmarkChar ∉ (cassDeparseRelation tm).toList →
      qmarkChar ∉ primaryKey.toList →
      (targetAttrs ≠ [] →
        countQMarks (cassDeparseInsertSql tm targetAttrs false) =
          targetAttrs.length) ∧
      countQMarks (cassDeparseUpdateSql tm targetAttrs primaryKey) =
        targetAttrs.length + 1 ∧
      countQMarks (cassDeparseDeleteSql tm primaryKey) = 1) := by
  refine ⟨?_, ?_, ?_⟩
  · intro tzoffset fm slot remote hok
    exact ⟨bindTargetAttrsLoop_ok_trace tzoffset fm "INSERT" slot
      fm.target_attrs 0 hok,
      cassExecForeignInsert_ok tzoffset fm slot remote hok⟩
  · intro tzoffset fm slot v w remote cqlOpName hok hb
    exact ⟨bindTargetAttrsLoop_ok_trace tzoffset fm cqlOpName slot
      fm.target_attrs 0 hok,
      cassExecPKPredWrite_ok tzoffset fm slot v w remote cqlOpName hok hb⟩
  · intro tm targetAttrs primaryKey hq hrel hpk
    have hrel0 : countQMarks (cassDeparseRelation tm) = 0 :=
      List.count_eq_zero.mpr hrel
    have hpk0 : countQMarks primaryKey = 0 :=
      List.count_eq_zero.mpr hpk
    refine ⟨?_, ?_, ?_⟩
    · intro hne
      show countQMarks ("INSERT INTO " ++ cassDeparseRelation tm ++
        (if targetAttrs ≠ [] then
          "(" ++ deparseInsertColsAux tm targetAttrs true ++ ") VALUES (" ++
            deparsePlaceholdersAux targetAttrs true ++ ")"
        else " DEFAULT VALUES") ++
        (if false then " ON CONFLICT DO NOTHING" else "")) =
        targetAttrs.length
      rw [if_pos hne, if_neg (by decide : ¬(false = true))]
      simp only [countQMarks_append]
      rw [hrel0, countQMarks_insertCols tm targetAttrs hq true,
        countQMarks_placeholders targetAttrs true,
        (by rfl : countQMarks "INSERT INTO " = 0),
        (by rfl : countQMarks "(" = 0),
        (by rfl : countQMarks ") VALUES (" = 0),
        (by rfl : countQMarks ")" = 0),
        (by rfl : countQMarks "" = 0)]
      omega
    · show countQMarks ("UPDATE " ++ cassDeparseRelation tm ++ " SET " ++
        deparseSetClauseAux tm targetAttrs true ++ " WHERE " ++
        primaryKey ++ " = ?") = targetAttrs.length + 1
      simp only [countQMarks_append]
      rw [hrel0, hpk0, countQMarks_setClause tm targetAttrs hq true,
        (by rfl : countQMarks "UPDATE " = 0),
        (by rfl : countQMarks " SET " = 0),
        (by rfl : countQMarks " WHERE " = 0),
        (by rfl : countQMarks " = ?" = 1)]
      omega
    · show countQMarks ("DELETE FROM " ++ cassDeparseRelation tm ++
        " WHERE " ++ primaryKey ++ " = ?") = 1
      simp only [countQMarks_append]
      rw [hrel0, hpk0,
        (by rfl : countQMarks "DELETE FROM " = 0),
        (by rfl : countQMarks " WHERE " = 0),
        (by rfl : countQMarks " = ?" = 1)]

/-- Witness for the bind-order theorem at the scenario table: the deparsed
UPDATE on one target column carries two placeholders (the SET column and
the trailing key predicate). -/
theorem cassExec_bind_order_witness :
    countQMarks (cassDeparseUpdateSql tmC [4] "id") = ([4] : List Nat).length + 1 :=
  ((cassExec_bind_order.2.2 tmC [4] "id" (by decide) (by decide)
    (by decide)).2).1
